import Mathlib

/-!
Shallow embedding of the booking admission and lifecycle engine of the
alx_travel_app repository (the listings app: models.py, serializers.py,
utils.py, views.py, tasks.py).

Conventions of the embedding:
* A Python `date` is represented by its day number (`Int`): Python date
  subtraction `(end - start).days` becomes integer subtraction and date
  comparison becomes integer comparison.  `daysFromCivil` converts the
  concrete calendar dates appearing in the scenarios to day numbers.
* A `DecimalField` amount is represented by `ℚ`.
* A Django queryset over the bookings table is represented by a
  `List Booking`; `filter`/`exclude`/`exists` become list operations.
* Primary keys are `Nat`; foreign keys store the referenced primary key.
-/

/-- Day number of a proleptic Gregorian calendar date (days since
1970-01-01), the standard days-from-civil computation.  Used only to
write the concrete calendar dates of the scenarios as the `Int` day
numbers the model works with. -/
def daysFromCivil (y m d : Int) : Int :=
  let y2 := if m ≤ 2 then y - 1 else y
  let era := (if 0 ≤ y2 then y2 else y2 - 399).fdiv 400
  let yoe := y2 - era * 400
  let doy := (153 * (m + (if 2 < m then (-3) else 9)) + 2).fdiv 5 + d - 1
  let doe := yoe * 365 + yoe.fdiv 4 - yoe.fdiv 100 + doy
  era * 146097 + doe - 719468

/-- Model of `listings.models.Property` — the fields the booking engine reads
(models.py lines 86-150). -/
structure Property where
  property_id : Nat
  host : Nat
  name : String
  price_per_night : ℚ
  max_guests : Nat
  is_available : Bool
deriving DecidableEq, Repr

/-- Model of `listings.models.Booking.Status` (models.py lines 154-159):
both spellings of the cancelled state exist in the code. -/
inductive BookingStatus where
  | pending
  | confirmed
  | canceled
  | cancelled
  | completed
deriving DecidableEq, Repr

/-- Model of `listings.models.Booking` — the fields the booking engine reads
(models.py lines 153-218). -/
structure Booking where
  booking_id : Nat
  property_id : Nat
  user : Nat
  start_date : Int
  end_date : Int
  guests : Nat
  total_price : ℚ
  status : BookingStatus
deriving DecidableEq, Repr

/-- Model of `listings.models.Notification` — the fields written by
`create_notification` (models.py lines 362-390, utils.py lines 134-149). -/
structure Notification where
  user : Nat
  notification_type : String
  title : String
  message : String
  is_read : Bool
  booking_id : Option Nat
  property_id : Option Nat
deriving DecidableEq, Repr

/-- The relational state the booking engine reads and writes. -/
structure DB where
  properties : List Property
  bookings : List Booking
  notifications : List Notification
deriving DecidableEq, Repr

/-- The status filter `status__in=['pending', 'confirmed']` used by every
overlap query (serializers.py line 174, utils.py line 174, views.py
lines 78 and 112). -/
def isActive (s : BookingStatus) : Bool :=
  s == .pending || s == .confirmed

/-- The overlap queryset
`Booking.objects.filter(property=property_obj, status__in=['pending','confirmed'],
start_date__lt=end_date, end_date__gt=start_date)`
(serializers.py lines 172-177, utils.py lines 172-177). -/
def overlappingBookings (bookings : List Booking) (pid : Nat) (s e : Int) :
    List Booking :=
  bookings.filter fun b =>
    b.property_id == pid && isActive b.status &&
      decide (b.start_date < e) && decide (s < b.end_date)

/-- Model of `qs.exclude(booking_id=inst.booking_id)`, applied only when an instance
is being excluded (serializers.py lines 178-179, utils.py lines 179-180). -/
def applyExclusion (l : List Booking) (inst : Option Booking) : List Booking :=
  match inst with
  | none => l
  | some ex => l.filter fun b => b.booking_id != ex.booking_id

/-- Model of `Property.objects.get(property_id=property_id)`; primary keys are
unique, so the lookup is `find?` (serializers.py line 158). -/
def findProperty (props : List Property) (pid : Nat) : Option Property :=
  props.find? fun p => p.property_id == pid

/-- Model of `check_property_availability` (utils.py lines 167-182). -/
def check_property_availability (bookings : List Booking) (p : Property)
    (s e : Int) (exclude : Option Booking) : Bool :=
  if p.is_available = false then false
  else (applyExclusion (overlappingBookings bookings p.property_id s e) exclude).isEmpty

/-- Model of `calculate_booking_total` (utils.py lines 152-164): raises
`ValueError("Invalid booking duration")` when the duration is ≤ 0 days. -/
def calculate_booking_total (price_per_night : ℚ) (start_date end_date : Int) :
    Except String ℚ :=
  if end_date - start_date ≤ 0 then Except.error "Invalid booking duration"
  else Except.ok (price_per_night * ((end_date - start_date : Int) : ℚ))

/-- The distinct `serializers.ValidationError` messages raised by
`BookingSerializer.validate` (serializers.py lines 145-189), in source
order.  `datesNotAvailable` is the overlap/Conflict error. -/
inductive BookingError where
  | propertyNotFound
  | propertyNotAvailable
  | guestLimitExceeded
  | invalidRange
  | datesNotAvailable
deriving DecidableEq, Repr

/-- The writable input of `BookingSerializer` for a booking request:
property id, dates, guest count (serializers.py lines 118-139). -/
structure BookingRequest where
  property_id : Nat
  start_date : Int
  end_date : Int
  guests : Nat
deriving DecidableEq, Repr

/-- The validated data returned by `BookingSerializer.validate`: the
resolved property, the dates and guest count, and the computed
`total_price` (serializers.py lines 184-189). -/
structure ValidatedData where
  property : Property
  start_date : Int
  end_date : Int
  guests : Nat
  total_price : ℚ
deriving DecidableEq, Repr

/-- Model of `BookingSerializer.validate` (serializers.py lines 145-189), with the
guards in source order: property lookup, availability flag, guest limit,
date range, overlap check (excluding `self.instance` when updating),
then the `total_price` computation. -/
def bookingSerializerValidate (props : List Property) (bookings : List Booking)
    (req : BookingRequest) (inst : Option Booking) :
    Except BookingError ValidatedData :=
  match findProperty props req.property_id with
  | none => Except.error BookingError.propertyNotFound
  | some property_obj =>
    if property_obj.is_available = false then
      Except.error BookingError.propertyNotAvailable
    else if property_obj.max_guests < req.guests then
      Except.error BookingError.guestLimitExceeded
    else if req.end_date ≤ req.start_date then
      Except.error BookingError.invalidRange
    else if applyExclusion
        (overlappingBookings bookings property_obj.property_id
          req.start_date req.end_date) inst ≠ [] then
      Except.error BookingError.datesNotAvailable
    else
      Except.ok
        { property := property_obj
          start_date := req.start_date
          end_date := req.end_date
          guests := req.guests
          total_price := property_obj.price_per_night *
            ((req.end_date - req.start_date : Int) : ℚ) }

/-- The booking row persisted by `BookingSerializer.create`
(serializers.py lines 141-143): the requesting user is attached and the
model default `status='pending'` applies (models.py line 168). -/
def mkBooking (newId userId : Nat) (v : ValidatedData) : Booking :=
  { booking_id := newId
    property_id := v.property.property_id
    user := userId
    start_date := v.start_date
    end_date := v.end_date
    guests := v.guests
    total_price := v.total_price
    status := BookingStatus.pending }

/-- Booking admission: validate, then persist the new row (append to the
bookings table).  Returns the new table and the created booking. -/
def createBooking (props : List Property) (bookings : List Booking)
    (req : BookingRequest) (userId newId : Nat) :
    Except BookingError (List Booking × Booking) :=
  match bookingSerializerValidate props bookings req none with
  | Except.error e => Except.error e
  | Except.ok v => Except.ok (bookings ++ [mkBooking newId userId v], mkBooking newId userId v)

/-- Booking update through `BookingSerializer` (ModelViewSet PUT):
validate with `self.instance` set, then write every validated field —
including the recomputed `total_price` — onto the instance. -/
def updateBooking (props : List Property) (bookings : List Booking)
    (inst : Booking) (req : BookingRequest) : Except BookingError Booking :=
  match bookingSerializerValidate props bookings req (some inst) with
  | Except.error e => Except.error e
  | Except.ok v =>
    Except.ok { inst with
      property_id := v.property.property_id
      start_date := v.start_date
      end_date := v.end_date
      guests := v.guests
      total_price := v.total_price }

/-- A sequence of admission attempts (request, requesting user, fresh id);
failed admissions leave the table unchanged. -/
def admitAll (props : List Property) (bookings : List Booking)
    (reqs : List (BookingRequest × Nat × Nat)) : List Booking :=
  reqs.foldl
    (fun acc r =>
      match createBooking props acc r.1 r.2.1 r.2.2 with
      | Except.ok res => res.1
      | Except.error _ => acc)
    bookings

/-- Two bookings are compatible when, if they are for the same property
and both have status in {pending, confirmed}, their half-open date
ranges do not overlap. -/
def bookingsCompatible (b1 b2 : Booking) : Prop :=
  b1.property_id = b2.property_id → isActive b1.status = true →
    isActive b2.status = true →
    ¬(b1.start_date < b2.end_date ∧ b2.start_date < b1.end_date)

/-- The no-double-booking invariant over the bookings table. -/
def noDoubleBooking (bookings : List Booking) : Prop :=
  List.Pairwise bookingsCompatible bookings

/-- Some booking with status in {pending, confirmed} for property `pid`
overlaps the half-open range `[s, e)`. -/
def activeOverlapExists (bookings : List Booking) (pid : Nat) (s e : Int) : Prop :=
  ∃ b ∈ bookings, b.property_id = pid ∧ isActive b.status = true ∧
    b.start_date < e ∧ s < b.end_date

/-- Environment flag for `create_notification`: whether the underlying
`Notification.objects.create` call succeeds or raises. -/
structure NotifEnv where
  createOk : Bool
deriving DecidableEq, Repr

/-- Model of `create_notification` (utils.py lines 134-149): creates the row and
returns it, but catches every exception and returns `None` instead of
raising, so it is a total function into `Option`. -/
def create_notification (env : NotifEnv) (user : Nat)
    (ntype title message : String) (bookingId propertyId : Option Nat) :
    Option Notification :=
  if env.createOk then
    some { user := user
           notification_type := ntype
           title := title
           message := message
           is_read := false
           booking_id := bookingId
           property_id := propertyId }
  else none

/-- Model of `self.get_object()` on the booking queryset (primary-key lookup). -/
def findBooking (db : DB) (bid : Nat) : Option Booking :=
  db.bookings.find? fun b => b.booking_id == bid

/-- Model of `booking.save()`: replace the row with the same primary key. -/
def saveBooking (bookings : List Booking) (b : Booking) : List Booking :=
  bookings.map fun x => if x.booking_id = b.booking_id then b else x

/-- The error responses of the booking action endpoints:
404 from `get_object`, 403 for a non-host actor, 400 for a failed
state-machine guard.  The 403/400 responses are the spec's
`PreconditionFailed` family (client-reported, not retried). -/
inductive ApiError where
  | notFound
  | forbidden
  | badRequest
deriving DecidableEq, Repr

/-- The notification recorded for the guest by a successful confirm
(views.py lines 212-220). -/
def confirmedNotif (b : Booking) (p : Property) : Notification :=
  { user := b.user
    notification_type := "booking_confirmed"
    title := "Booking Confirmed"
    message := "Your booking for " ++ p.name ++ " has been confirmed."
    is_read := false
    booking_id := some b.booking_id
    property_id := some p.property_id }

/-- Model of `BookingViewSet.confirm` (views.py lines 191-223).  The booking's
property is resolved through its foreign key; a dangling foreign key is
unrepresentable in Django and modelled as `notFound`. -/
def confirmEndpoint (env : NotifEnv) (db : DB) (bid actor : Nat) :
    Except ApiError DB :=
  match findBooking db bid with
  | none => Except.error ApiError.notFound
  | some booking =>
    match findProperty db.properties booking.property_id with
    | none => Except.error ApiError.notFound
    | some prop =>
      if prop.host ≠ actor then Except.error ApiError.forbidden
      else if booking.status ≠ BookingStatus.pending then
        Except.error ApiError.badRequest
      else
        Except.ok { db with
          bookings := saveBooking db.bookings
            { booking with status := BookingStatus.confirmed }
          notifications := db.notifications ++
            (create_notification env booking.user "booking_confirmed"
              "Booking Confirmed"
              ("Your booking for " ++ prop.name ++ " has been confirmed.")
              (some booking.booking_id) (some prop.property_id)).toList }

/-- Model of `BookingViewSet.cancel` (views.py lines 225-258): guard on status in
{pending, confirmed}, set status to `'cancelled'`, notify the
counterparty (host if the guest acted, guest otherwise). -/
def cancelEndpoint (env : NotifEnv) (db : DB) (bid actor : Nat) :
    Except ApiError DB :=
  match findBooking db bid with
  | none => Except.error ApiError.notFound
  | some booking =>
    match findProperty db.properties booking.property_id with
    | none => Except.error ApiError.notFound
    | some prop =>
      if booking.status ≠ BookingStatus.pending ∧
          booking.status ≠ BookingStatus.confirmed then
        Except.error ApiError.badRequest
      else
        Except.ok { db with
          bookings := saveBooking db.bookings
            { booking with status := BookingStatus.cancelled }
          notifications := db.notifications ++
            (create_notification env
              (if actor = booking.user then prop.host else booking.user)
              "booking_cancelled" "Booking Cancelled"
              ("Booking for " ++ prop.name ++ " has been cancelled.")
              (some booking.booking_id) (some prop.property_id)).toList }

/-- Model of `BookingViewSet.complete` (views.py lines 260-288): host only,
status must be `confirmed`, and `booking.end_date > timezone.now().date()`
is rejected; no notification of any kind is created. -/
def completeEndpoint (db : DB) (bid actor : Nat) (today : Int) :
    Except ApiError DB :=
  match findBooking db bid with
  | none => Except.error ApiError.notFound
  | some booking =>
    match findProperty db.properties booking.property_id with
    | none => Except.error ApiError.notFound
    | some prop =>
      if prop.host ≠ actor then Except.error ApiError.forbidden
      else if booking.status ≠ BookingStatus.confirmed then
        Except.error ApiError.badRequest
      else if today < booking.end_date then Except.error ApiError.badRequest
      else
        Except.ok { db with
          bookings := saveBooking db.bookings
            { booking with status := BookingStatus.completed } }

/-- An asynchronous task enqueued on the Celery queue. -/
structure TaskCall where
  task : String
  booking_id : Nat
deriving DecidableEq, Repr

/-- The in-app notification recorded for the host on admission. -/
def hostRequestNotif (nid : Nat) (p : Property) : Notification :=
  { user := p.host
    notification_type := "booking_request"
    title := "New Booking Request"
    message := "You have received a new booking request for " ++ p.name ++ "."
    is_read := false
    booking_id := some nid
    property_id := some p.property_id }

/-- Modelled from the spec: the booking viewset's creation hook that,
only after a successful admission, enqueues exactly one
`send_booking_confirmation_email` task and records one in-app
notification for the property's host (spec §2 control flow and §4.5
"Only after the transaction commits: enqueue confirmation notification
and create in-app notification for the host").  The hook itself is not
under src/ — src/ contains only the task definition (tasks.py lines
78-210), its queue routing (settings.py lines 193-195) and the
validation/persistence path it wraps (serializers.py lines 141-189);
the `BookingViewSet` in views.py has no create override. -/
def createBookingEndpoint (env : NotifEnv) (db : DB) (req : BookingRequest)
    (userId newId : Nat) : Except BookingError Nat × DB × List TaskCall :=
  match bookingSerializerValidate db.properties db.bookings req none with
  | Except.error e => (Except.error e, db, [])
  | Except.ok v =>
    ( Except.ok newId,
      { db with
        bookings := db.bookings ++ [mkBooking newId userId v]
        notifications := db.notifications ++
          (create_notification env v.property.host "booking_request"
            "New Booking Request"
            ("You have received a new booking request for " ++ v.property.name ++ ".")
            (some newId) (some v.property.property_id)).toList },
      [{ task := "send_booking_confirmation_email", booking_id := newId }] )

/-- The observable outcome of one Celery task delivery: how many times
the body ran, the delay before each re-run, and whether the final run
succeeded (a `false` is the FAILED state surfaced on the task runner's
failure channel). -/
structure TaskRun where
  attempts : Nat
  delays : List Nat
  succeeded : Bool
deriving DecidableEq, Repr

/-- Celery's execution of a `bind=True` task whose body, on an exception,
calls `self.retry(countdown=countdown)` while `self.request.retries <
self.max_retries` and re-raises once the budget is exhausted
(tasks.py lines 200-210).  `fails k` says whether the body's try-block
raises on the attempt with `self.request.retries = k`; `remaining` is
`max_retries - retries`. -/
def runCeleryTask (fails : Nat → Bool) (countdown : Nat) :
    Nat → Nat → TaskRun
  | 0, retries =>
    { attempts := 1, delays := [], succeeded := !fails retries }
  | remaining + 1, retries =>
    if fails retries then
      { attempts := (runCeleryTask fails countdown remaining (retries + 1)).attempts + 1
        delays := countdown :: (runCeleryTask fails countdown remaining (retries + 1)).delays
        succeeded := (runCeleryTask fails countdown remaining (retries + 1)).succeeded }
    else { attempts := 1, delays := [], succeeded := true }

/-- A delivery of `send_booking_confirmation_email`
(`@shared_task(bind=True, max_retries=3, default_retry_delay=60)` with
`self.retry(exc=exc, countdown=60)`, tasks.py lines 78 and 200-210). -/
def send_booking_confirmation_email_run (fails : Nat → Bool) : TaskRun :=
  runCeleryTask fails 60 3 0

/-- The task body receives only primitive payload fields (ids, emails,
ISO date strings) and never reads or writes the bookings table, so a
delivery executed next to a database state leaves that state intact. -/
def run_confirmation_task_with_db (db : DB) (fails : Nat → Bool) :
    DB × TaskRun :=
  (db, send_booking_confirmation_email_run fails)

/-- Property X of the spec's scenarios: max_guests = 2, rate = 50/night
(§8), owned by host 10. -/
def propX : Property :=
  { property_id := 1
    host := 10
    name := "X"
    price_per_night := 50
    max_guests := 2
    is_available := true }

/-- Property X with its availability flag unset. -/
def propXOff : Property :=
  { propX with is_available := false }

/-- The booking admitted in the spec's scenario: X for
2024-03-01 → 2024-03-04, 2 guests, total 150, status pending. -/
def bookingA : Booking :=
  { booking_id := 1
    property_id := 1
    user := 2
    start_date := daysFromCivil 2024 3 1
    end_date := daysFromCivil 2024 3 4
    guests := 2
    total_price := 150
    status := BookingStatus.pending }

/-- The scenario booking request that creates `bookingA`. -/
def reqMar : BookingRequest :=
  { property_id := 1
    start_date := daysFromCivil 2024 3 1
    end_date := daysFromCivil 2024 3 4
    guests := 2 }

/-- The second guest's overlapping request: X for 2024-03-03 → 2024-03-05. -/
def reqOverlap : BookingRequest :=
  { property_id := 1
    start_date := daysFromCivil 2024 3 3
    end_date := daysFromCivil 2024 3 5
    guests := 1 }

/-- Database state after the scenario's first admission. -/
def dbMar : DB :=
  { properties := [propX], bookings := [bookingA], notifications := [] }

/-- Booking `bookingA` after the host confirmed it. -/
def bookingAConfirmed : Booking :=
  { bookingA with status := BookingStatus.confirmed }

/-- Database state with the scenario booking confirmed. -/
def dbMarConfirmed : DB :=
  { properties := [propX], bookings := [bookingAConfirmed], notifications := [] }

/-- A booking whose stored `total_price` (999) no longer matches
rate × nights (50 × 3 = 150), used to show that an update recomputes it. -/
def staleBooking : Booking :=
  { booking_id := 1
    property_id := 1
    user := 2
    start_date := 0
    end_date := 3
    guests := 2
    total_price := 999
    status := BookingStatus.pending }

/-- Booking request on property 1 whose start date (2020-01-01) lies in
the past relative to 2026-10-12, with every other guard satisfied. -/
def reqPast : BookingRequest :=
  { property_id := 1
    start_date := daysFromCivil 2020 1 1
    end_date := daysFromCivil 2020 1 3
    guests := 1 }

/-- The booking row the admission path persists for `reqPast`. -/
def pastBooking : Booking :=
  { booking_id := 1
    property_id := 1
    user := 2
    start_date := daysFromCivil 2020 1 1
    end_date := daysFromCivil 2020 1 3
    guests := 1
    total_price := 100
    status := BookingStatus.pending }

/-- Database state holding property X and no bookings. -/
def dbX : DB := { properties := [propX], bookings := [], notifications := [] }

/-- The validated data produced for `reqMar` against an empty bookings
table. -/
def vMar : ValidatedData :=
  { property := propX
    start_date := daysFromCivil 2024 3 1
    end_date := daysFromCivil 2024 3 4
    guests := 2
    total_price := 150 }

/-- Update request resubmitting `staleBooking`'s own property and dates. -/
def reqStale : BookingRequest :=
  { property_id := 1, start_date := 0, end_date := 3, guests := 2 }

/-- A property returned by the primary-key lookup carries the looked-up id. -/
lemma findProperty_pid {props : List Property} {pid : Nat} {p : Property}
    (h : findProperty props pid = some p) : p.property_id = pid := by
  unfold findProperty at h
  simpa using List.find?_some h

/-- The overlap queryset (after exclusion) is empty exactly when every
active overlapping booking of the property is the excluded one. -/
lemma applyExclusion_nil_iff (bookings : List Booking) (pid : Nat) (s e : Int)
    (inst : Option Booking) :
    applyExclusion (overlappingBookings bookings pid s e) inst = [] ↔
      ∀ b ∈ bookings, b.property_id = pid → isActive b.status = true →
        b.start_date < e → s < b.end_date →
        ∃ ex, inst = some ex ∧ b.booking_id = ex.booking_id := by
  cases inst with
  | none =>
    simp only [applyExclusion, overlappingBookings, List.filter_eq_nil_iff]
    constructor
    · intro h b hb hpid hact hlt1 hlt2
      exact absurd (by simp [hpid, hact, hlt1, hlt2]) (h b hb)
    · intro h b hb hpred
      simp only [Bool.and_eq_true, beq_iff_eq, decide_eq_true_eq] at hpred
      obtain ⟨⟨⟨h1, h2⟩, h3⟩, h4⟩ := hpred
      obtain ⟨ex, hex, _⟩ := h b hb h1 h2 h3 h4
      exact Option.noConfusion hex
  | some ex =>
    simp only [applyExclusion, overlappingBookings, List.filter_eq_nil_iff,
      List.mem_filter]
    constructor
    · intro h b hb hpid hact hlt1 hlt2
      refine ⟨ex, rfl, ?_⟩
      by_contra hne
      exact h b ⟨hb, by simp [hpid, hact, hlt1, hlt2]⟩ (by simpa using hne)
    · intro h b hb hbne
      obtain ⟨hb1, hpred⟩ := hb
      simp only [Bool.and_eq_true, beq_iff_eq, decide_eq_true_eq] at hpred
      obtain ⟨⟨⟨h1, h2⟩, h3⟩, h4⟩ := hpred
      obtain ⟨ex2, hex2, heq⟩ := h b hb1 h1 h2 h3 h4
      cases hex2
      simp [heq] at hbne

/-- Inversion of a successful `BookingSerializer.validate` run: every
guard passed and the validated data is determined by the request. -/
lemma validate_ok_inv {props : List Property} {bookings : List Booking}
    {req : BookingRequest} {inst : Option Booking} {v : ValidatedData}
    (h : bookingSerializerValidate props bookings req inst = Except.ok v) :
    findProperty props req.property_id = some v.property ∧
    v.property.is_available = true ∧
    req.guests ≤ v.property.max_guests ∧
    req.start_date < req.end_date ∧
    applyExclusion (overlappingBookings bookings v.property.property_id
      req.start_date req.end_date) inst = [] ∧
    v.start_date = req.start_date ∧ v.end_date = req.end_date ∧
    v.guests = req.guests ∧
    v.total_price = v.property.price_per_night *
      ((req.end_date - req.start_date : Int) : ℚ) := by
  unfold bookingSerializerValidate at h
  cases hfp : findProperty props req.property_id <;> rw [hfp] at h
  · exact Except.noConfusion h
  · rename_i p
    simp only [] at h
    split_ifs at h with h1 h2 h3 h4
    injection h with h5
    subst h5
    refine ⟨rfl, ?_, ?_, ?_, ?_, rfl, rfl, rfl, rfl⟩
    · simpa using h1
    · exact Nat.not_lt.mp h2
    · omega
    · exact not_not.mp h4

/-- A successful admission preserves the no-double-booking invariant:
the new pending booking was checked against every active booking of its
property. -/
lemma createBooking_preserves {props : List Property} {bookings : List Booking}
    {req : BookingRequest} {uid nid : Nat}
    {res : List Booking × Booking}
    (hinv : noDoubleBooking bookings)
    (h : createBooking props bookings req uid nid = Except.ok res) :
    noDoubleBooking res.1 := by
  unfold createBooking at h
  cases hv : bookingSerializerValidate props bookings req none <;> rw [hv] at h
  · exact Except.noConfusion h
  · rename_i v
    injection h with h2
    subst h2
    obtain ⟨hfp, hav, hg, hlt, hnil, hs, he, hgu, htp⟩ := validate_ok_inv hv
    rw [applyExclusion_nil_iff] at hnil
    unfold noDoubleBooking
    rw [List.pairwise_append]
    refine ⟨hinv, List.pairwise_singleton _ _, ?_⟩
    intro a ha b hb
    simp only [List.mem_singleton] at hb
    subst hb
    intro hpid hact1 hact2 hov
    have h1 : a.start_date < req.end_date := by
      have := hov.1
      simpa [mkBooking, he] using this
    have h2 : req.start_date < a.end_date := by
      have := hov.2
      simpa [mkBooking, hs] using this
    have hpid2 : a.property_id = v.property.property_id := by
      simpa [mkBooking] using hpid
    obtain ⟨ex, hex, _⟩ := hnil a ha hpid2 hact1 h1 h2
    exact Option.noConfusion hex

/-- Any sequence of admission attempts preserves the no-double-booking
invariant. -/
lemma admitAll_preserves (props : List Property)
    (reqs : List (BookingRequest × Nat × Nat)) :
    ∀ bookings : List Booking, noDoubleBooking bookings →
      noDoubleBooking (admitAll props bookings reqs) := by
  induction reqs with
  | nil => intro bookings h; simpa [admitAll] using h
  | cons hd tl ih =>
    intro bookings h
    show noDoubleBooking (admitAll props bookings (hd :: tl))
    unfold admitAll
    rw [List.foldl_cons]
    cases hc : createBooking props bookings hd.1 hd.2.1 hd.2.2 with
    | error e =>
      simp only [hc]
      exact ih bookings h
    | ok res =>
      simp only [hc]
      exact ih res.1 (createBooking_preserves h hc)

/-- Day number of 2024-03-01. -/
lemma dayMar1 : daysFromCivil 2024 3 1 = 19783 := by decide

/-- Day number of 2024-03-04. -/
lemma dayMar4 : daysFromCivil 2024 3 4 = 19786 := by decide

/-- Day number of 2020-01-01. -/
lemma dayPast1 : daysFromCivil 2020 1 1 = 18262 := by decide

/-- Day number of 2020-01-03. -/
lemma dayPast3 : daysFromCivil 2020 1 3 = 18264 := by decide

/-- Day number of 2024-01-01. -/
lemma dayJan1 : daysFromCivil 2024 1 1 = 19723 := by decide

/-- Day number of 2024-01-04. -/
lemma dayJan4 : daysFromCivil 2024 1 4 = 19726 := by decide

/-- Behaviour of the Celery retry loop for any remaining budget: at
least one and at most `remaining + 1` attempts, one fixed delay between
consecutive attempts, and a surfaced failure exactly when every attempt
in the budget failed. -/
lemma runCeleryTask_spec (fails : Nat → Bool) (countdown : Nat) :
    ∀ remaining retries,
      1 ≤ (runCeleryTask fails countdown remaining retries).attempts ∧
      (runCeleryTask fails countdown remaining retries).attempts ≤ remaining + 1 ∧
      (runCeleryTask fails countdown remaining retries).delays.length =
        (runCeleryTask fails countdown remaining retries).attempts - 1 ∧
      (∀ d ∈ (runCeleryTask fails countdown remaining retries).delays,
        d = countdown) ∧
      ((runCeleryTask fails countdown remaining retries).succeeded = false ↔
        ∀ k, retries ≤ k → k ≤ retries + remaining → fails k = true) := by
  intro remaining
  induction remaining with
  | zero =>
    intro retries
    refine ⟨by simp [runCeleryTask], by simp [runCeleryTask],
      by simp [runCeleryTask], by simp [runCeleryTask], ?_⟩
    simp only [runCeleryTask, Bool.not_eq_false']
    constructor
    · intro h k hk1 hk2
      have : k = retries := by omega
      rw [this, h]
    · intro h
      exact h retries (by omega) (by omega)
  | succ n ih =>
    intro retries
    cases hf : fails retries with
    | false =>
      refine ⟨by simp [runCeleryTask, hf], by simp [runCeleryTask, hf],
        by simp [runCeleryTask, hf], by simp [runCeleryTask, hf], ?_⟩
      have hs : (runCeleryTask fails countdown (n + 1) retries).succeeded = true := by
        simp [runCeleryTask, hf]
      constructor
      · intro h
        rw [hs] at h
        exact Bool.noConfusion h
      · intro h
        have := h retries (by omega) (by omega)
        rw [hf] at this
        exact Bool.noConfusion this
    | true =>
      obtain ⟨ih1, ih2, ih3, ih4, ih5⟩ := ih (retries + 1)
      refine ⟨?_, ?_, ?_, ?_, ?_⟩
      · simp [runCeleryTask, hf]
      · simp only [runCeleryTask, hf, if_true]
        omega
      · simp only [runCeleryTask, hf, if_true, List.length_cons]
        omega
      · simp only [runCeleryTask, hf, if_true]
        intro d hd
        rcases List.mem_cons.mp hd with h | h
        · exact h
        · exact ih4 d h
      · simp only [runCeleryTask, hf, if_true]
        rw [ih5]
        constructor
        · intro h k hk1 hk2
          by_cases hk : k = retries
          · rw [hk, hf]
          · exact h k (by omega) (by omega)
        · intro h k hk1 hk2
          exact h k (by omega) (by omega)

/-- Claim C1: a booking request whose half-open range overlaps an
existing pending/confirmed booking of the same property is rejected (no
row is created); when every earlier guard passes, the rejection is the
Conflict error `datesNotAvailable`; consequently any sequence of
admissions preserves the no-double-booking invariant. -/
theorem C1_no_double_booking (props : List Property) (bookings : List Booking)
    (req : BookingRequest) (uid nid : Nat) :
    (activeOverlapExists bookings req.property_id req.start_date req.end_date →
      ∃ err, createBooking props bookings req uid nid = Except.error err) ∧
    (∀ p, findProperty props req.property_id = some p →
      p.is_available = true → req.guests ≤ p.max_guests →
      req.start_date < req.end_date →
      activeOverlapExists bookings req.property_id req.start_date req.end_date →
      createBooking props bookings req uid nid =
        Except.error BookingError.datesNotAvailable) ∧
    (∀ reqs : List (BookingRequest × Nat × Nat),
      noDoubleBooking bookings → noDoubleBooking (admitAll props bookings reqs)) := by
  refine ⟨?_, ?_, ?_⟩
  · intro hov
    cases hv : bookingSerializerValidate props bookings req none with
    | error e => exact ⟨e, by unfold createBooking; rw [hv]⟩
    | ok v =>
      exfalso
      obtain ⟨hfp, hav, hg, hlt, hnil, hs, he, hgu, htp⟩ := validate_ok_inv hv
      rw [applyExclusion_nil_iff] at hnil
      obtain ⟨b, hb, hpid, hact, h1, h2⟩ := hov
      have hpid2 : b.property_id = v.property.property_id := by
        rw [hpid, findProperty_pid hfp]
      obtain ⟨ex, hex, _⟩ := hnil b hb hpid2 hact h1 h2
      exact Option.noConfusion hex
  · intro p hfp hav hg hlt hov
    obtain ⟨b, hb, hpid, hact, h1, h2⟩ := hov
    have hpid2 : p.property_id = req.property_id := findProperty_pid hfp
    unfold createBooking bookingSerializerValidate
    rw [hfp]
    simp only []
    rw [if_neg (by simp [hav]), if_neg (by omega), if_neg (by omega), if_pos]
    have hmem : b ∈ overlappingBookings bookings p.property_id
        req.start_date req.end_date := by
      refine List.mem_filter.mpr ⟨hb, ?_⟩
      simp only [Bool.and_eq_true, beq_iff_eq, decide_eq_true_eq]
      exact ⟨⟨⟨by rw [hpid, hpid2], hact⟩, h1⟩, h2⟩
    exact List.ne_nil_of_mem hmem
  · intro reqs h
    exact admitAll_preserves props reqs bookings h

/-- Witness for C1 at the spec's scenario: with X booked for
2024-03-01 → 2024-03-04, the request for 2024-03-03 → 2024-03-05 fails
with the Conflict error. -/
theorem C1_no_double_booking_witness :
    createBooking [propX] [bookingA] reqOverlap 3 2 =
      Except.error BookingError.datesNotAvailable :=
  (C1_no_double_booking [propX] [bookingA] reqOverlap 3 2).2.1 propX rfl rfl
    (by decide) (by decide)
    ⟨bookingA, by simp, by decide, by decide, by decide, by decide⟩

/-- Claim C2: the admission guards NotFound, Unavailable,
GuestLimitExceeded and InvalidRange all reject with no row created, and
a passing request is persisted as pending — but a start date in the
past (2020-01-01, seen from 2026-10-12) is admitted, although
`Booking.clean` (models.py lines 200-201) declares "Check-in date
cannot be in the past": the serializer/viewset admission path never
runs that check. -/
theorem C2_admission_guards :
    reqPast.start_date < daysFromCivil 2026 10 12 ∧
    createBooking [propX] [] reqPast 2 1 = Except.ok ([pastBooking], pastBooking) ∧
    pastBooking.status = BookingStatus.pending ∧
    createBooking [propX] [] { reqPast with property_id := 2 } 2 1 =
      Except.error BookingError.propertyNotFound ∧
    createBooking [propXOff] [] reqMar 2 1 =
      Except.error BookingError.propertyNotAvailable ∧
    createBooking [propX] [] { reqMar with guests := 3 } 2 1 =
      Except.error BookingError.guestLimitExceeded ∧
    createBooking [propX] [] { reqMar with end_date := reqMar.start_date } 2 1 =
      Except.error BookingError.invalidRange := by
  refine ⟨by decide, ?_, rfl, ?_, ?_, ?_, ?_⟩
  · norm_num [createBooking, bookingSerializerValidate, findProperty, applyExclusion,
      overlappingBookings, propX, reqPast, pastBooking, mkBooking, dayPast1, dayPast3]
  · norm_num [createBooking, bookingSerializerValidate, findProperty, propX, reqPast]
  · norm_num [createBooking, bookingSerializerValidate, findProperty, propXOff, propX, reqMar]
  · norm_num [createBooking, bookingSerializerValidate, findProperty, propX, reqMar]
  · norm_num [createBooking, bookingSerializerValidate, findProperty, applyExclusion,
      overlappingBookings, propX, reqMar]

/-- Claim C3: the availability checker returns false whenever the
property's availability flag is unset, and otherwise returns true
exactly when no pending/confirmed booking of the property — other than
the excluded one — overlaps the half-open range; it is a pure function,
so repeated calls on the same inputs agree. -/
theorem C3_availability_checker (bookings : List Booking) (p : Property)
    (s e : Int) (exclude : Option Booking) :
    (p.is_available = false →
      check_property_availability bookings p s e exclude = false) ∧
    (check_property_availability bookings p s e exclude = true ↔
      (p.is_available = true ∧
        ∀ b ∈ bookings, b.property_id = p.property_id →
          isActive b.status = true → b.start_date < e → s < b.end_date →
          ∃ ex, exclude = some ex ∧ b.booking_id = ex.booking_id)) ∧
    check_property_availability bookings p s e exclude =
      check_property_availability bookings p s e exclude := by
  refine ⟨?_, ?_, rfl⟩
  · intro h
    simp [check_property_availability, h]
  · unfold check_property_availability
    cases hA : p.is_available with
    | false => simp
    | true =>
      rw [if_neg (by simp)]
      rw [List.isEmpty_iff, applyExclusion_nil_iff]
      simp

/-- Witness for C3: a property with the availability flag unset is
reported unavailable. -/
theorem C3_availability_checker_witness :
    check_property_availability [] propXOff 0 1 none = false :=
  (C3_availability_checker [] propXOff 0 1 none).1 rfl

/-- Claim C4: confirm succeeds exactly when the booking is pending and
the actor is the property's host; on success the status becomes
confirmed and exactly one in-app notification addressed to the guest is
recorded; any violating attempt fails with an error response (the
spec's PreconditionFailed family) and mutates nothing. -/
theorem C4_confirm (db : DB) (bid actor : Nat) (b : Booking) (p : Property)
    (hfb : findBooking db bid = some b)
    (hfp : findProperty db.properties b.property_id = some p) :
    ((∃ db2, confirmEndpoint ⟨true⟩ db bid actor = Except.ok db2) ↔
      (b.status = BookingStatus.pending ∧ actor = p.host)) ∧
    (∀ db2, confirmEndpoint ⟨true⟩ db bid actor = Except.ok db2 →
      db2.bookings = saveBooking db.bookings
        { b with status := BookingStatus.confirmed } ∧
      db2.notifications = db.notifications ++ [confirmedNotif b p]) ∧
    (¬(b.status = BookingStatus.pending ∧ actor = p.host) →
      ∃ err, confirmEndpoint ⟨true⟩ db bid actor = Except.error err) := by
  unfold confirmEndpoint
  rw [hfb]
  simp only []
  rw [hfp]
  simp only []
  refine ⟨?_, ?_, ?_⟩
  · constructor
    · rintro ⟨db2, hdb2⟩
      split_ifs at hdb2 with h1 h2
      exact ⟨not_not.mp h2, (not_not.mp h1).symm⟩
    · rintro ⟨hst, hact⟩
      rw [if_neg (by simp [hact]), if_neg (by simp [hst])]
      exact ⟨_, rfl⟩
  · intro db2 hdb2
    split_ifs at hdb2 with h1 h2
    injection hdb2 with h3
    subst h3
    refine ⟨rfl, ?_⟩
    simp [create_notification, confirmedNotif]
  · intro hno
    by_cases h1 : p.host = actor
    · have h2 : b.status ≠ BookingStatus.pending := by
        intro hst
        exact hno ⟨hst, h1.symm⟩
      rw [if_neg (by simp [h1]), if_pos h2]
      exact ⟨_, rfl⟩
    · rw [if_pos h1]
      exact ⟨_, rfl⟩

/-- Witness for C4: the host (user 10) successfully confirms the
pending scenario booking. -/
theorem C4_confirm_witness :
    ∃ db2, confirmEndpoint ⟨true⟩ dbMar 1 10 = Except.ok db2 :=
  (C4_confirm dbMar 1 10 bookingA propX rfl rfl).1.mpr ⟨rfl, rfl⟩

/-- Claim C5: complete succeeds exactly when the booking is confirmed,
the actor is the host, and end_date ≤ today; on success the status
becomes completed and no notification is created; an attempt before
end_date fails with an error and the stored status stays confirmed. -/
theorem C5_complete (db : DB) (bid actor : Nat) (today : Int)
    (b : Booking) (p : Property)
    (hfb : findBooking db bid = some b)
    (hfp : findProperty db.properties b.property_id = some p) :
    ((∃ db2, completeEndpoint db bid actor today = Except.ok db2) ↔
      (b.status = BookingStatus.confirmed ∧ actor = p.host ∧
        b.end_date ≤ today)) ∧
    (∀ db2, completeEndpoint db bid actor today = Except.ok db2 →
      db2.bookings = saveBooking db.bookings
        { b with status := BookingStatus.completed } ∧
      db2.notifications = db.notifications) ∧
    (b.status = BookingStatus.confirmed → actor = p.host → today < b.end_date →
      completeEndpoint db bid actor today = Except.error ApiError.badRequest) := by
  unfold completeEndpoint
  rw [hfb]
  simp only []
  rw [hfp]
  simp only []
  refine ⟨?_, ?_, ?_⟩
  · constructor
    · rintro ⟨db2, hdb2⟩
      split_ifs at hdb2 with h1 h2 h3
      exact ⟨not_not.mp h2, (not_not.mp h1).symm, by omega⟩
    · rintro ⟨hst, hact, hend⟩
      rw [if_neg (by simp [hact]), if_neg (by simp [hst]), if_neg (by omega)]
      exact ⟨_, rfl⟩
  · intro db2 hdb2
    split_ifs at hdb2 with h1 h2 h3
    injection hdb2 with h4
    subst h4
    exact ⟨rfl, rfl⟩
  · intro hst hact hend
    rw [if_neg (by simp [hact.symm]), if_neg (by simp [hst]), if_pos hend]

/-- Witness for C5: on 2024-03-03, before the 2024-03-04 checkout, the
host's completion attempt on the confirmed booking is rejected. -/
theorem C5_complete_witness :
    completeEndpoint dbMarConfirmed 1 10 (daysFromCivil 2024 3 3) =
      Except.error ApiError.badRequest :=
  (C5_complete dbMarConfirmed 1 10 (daysFromCivil 2024 3 3) bookingAConfirmed
    propX rfl rfl).2.2 rfl rfl (by decide)

/-- Claim C6: the pricing calculator fails with the invalid-duration
error exactly when the whole-night count (end − start) is ≤ 0, and
otherwise returns nightly_rate × whole_nights with no other adjustment;
in particular rate 100 over 2024-01-01 → 2024-01-04 yields 300. -/
theorem C6_pricing_calculator (rate : ℚ) (s e : Int) :
    (e - s ≤ 0 →
      calculate_booking_total rate s e = Except.error "Invalid booking duration") ∧
    (0 < e - s →
      calculate_booking_total rate s e = Except.ok (rate * ((e - s : Int) : ℚ))) ∧
    (∀ q : ℚ, calculate_booking_total rate s e = Except.ok q → 0 < e - s) ∧
    calculate_booking_total 100 (daysFromCivil 2024 1 1) (daysFromCivil 2024 1 4) =
      Except.ok 300 := by
  refine ⟨?_, ?_, ?_, ?_⟩
  · intro h
    simp [calculate_booking_total, h]
  · intro h
    rw [calculate_booking_total, if_neg (by omega)]
  · intro q h
    by_contra hc
    rw [calculate_booking_total, if_pos (by omega)] at h
    exact Except.noConfusion h
  · norm_num [calculate_booking_total, dayJan1, dayJan4]

/-- Witness for C6: the spec's pricing example evaluates to 300. -/
theorem C6_pricing_calculator_witness :
    calculate_booking_total 100 (daysFromCivil 2024 1 1) (daysFromCivil 2024 1 4) =
      Except.ok 300 :=
  (C6_pricing_calculator 0 0 0).2.2.2

/-- Claim C7: after a successful admission exactly one asynchronous
confirmation task is enqueued and exactly one in-app notification
addressed to the property's host is recorded; a failed admission
produces neither side effect and leaves the database untouched. -/
theorem C7_admission_side_effects (db : DB) (req : BookingRequest)
    (uid nid : Nat) :
    (∀ err, (createBookingEndpoint ⟨true⟩ db req uid nid).1 = Except.error err →
      (createBookingEndpoint ⟨true⟩ db req uid nid).2.1 = db ∧
      (createBookingEndpoint ⟨true⟩ db req uid nid).2.2 = []) ∧
    (∀ v, bookingSerializerValidate db.properties db.bookings req none =
        Except.ok v →
      (createBookingEndpoint ⟨true⟩ db req uid nid).2.2 =
        [{ task := "send_booking_confirmation_email", booking_id := nid }] ∧
      (createBookingEndpoint ⟨true⟩ db req uid nid).2.1.notifications =
        db.notifications ++ [hostRequestNotif nid v.property] ∧
      (createBookingEndpoint ⟨true⟩ db req uid nid).2.1.bookings =
        db.bookings ++ [mkBooking nid uid v]) := by
  constructor
  · intro err herr
    unfold createBookingEndpoint at herr ⊢
    cases hv : bookingSerializerValidate db.properties db.bookings req none with
    | error e => exact ⟨rfl, rfl⟩
    | ok v =>
      rw [hv] at herr
      exact Except.noConfusion herr
  · intro v hv
    unfold createBookingEndpoint
    rw [hv]
    refine ⟨rfl, ?_, rfl⟩
    simp [create_notification, hostRequestNotif]

/-- Witness for C7: admitting the scenario request against an empty
table enqueues exactly one confirmation task. -/
theorem C7_admission_side_effects_witness :
    (createBookingEndpoint ⟨true⟩ dbX reqMar 2 1).2.2 =
      [{ task := "send_booking_confirmation_email", booking_id := 1 }] :=
  ((C7_admission_side_effects dbX reqMar 2 1).2 vMar
    (by norm_num [bookingSerializerValidate, findProperty, applyExclusion,
      overlappingBookings, propX, reqMar, vMar, dbX, dayMar1, dayMar4])).1

/-- Claim C8: a failing confirmation-email delivery is attempted at
most 1 + 3 times with a fixed 60-second delay before each retry; the
run is surfaced as failed exactly when the whole budget (attempts with
`self.request.retries` = 0..3) failed; and a delivery never changes
the database holding the bookings. -/
theorem C8_notification_retry (fails : Nat → Bool) (db : DB) :
    (send_booking_confirmation_email_run fails).attempts ≤ 4 ∧
    (send_booking_confirmation_email_run fails).delays.length =
      (send_booking_confirmation_email_run fails).attempts - 1 ∧
    (∀ d ∈ (send_booking_confirmation_email_run fails).delays, d = 60) ∧
    ((send_booking_confirmation_email_run fails).succeeded = false ↔
      (fails 0 = true ∧ fails 1 = true ∧ fails 2 = true ∧ fails 3 = true)) ∧
    run_confirmation_task_with_db db fails =
      (db, send_booking_confirmation_email_run fails) := by
  obtain ⟨h1, h2, h3, h4, h5⟩ := runCeleryTask_spec fails 60 3 0
  refine ⟨h2, h3, h4, ?_, rfl⟩
  rw [show send_booking_confirmation_email_run fails =
    runCeleryTask fails 60 3 0 from rfl, h5]
  constructor
  · intro h
    exact ⟨h 0 (by omega) (by omega), h 1 (by omega) (by omega),
      h 2 (by omega) (by omega), h 3 (by omega) (by omega)⟩
  · rintro ⟨f0, f1, f2, f3⟩ k hk1 hk2
    interval_cases k <;> assumption

/-- Witness for C8: a permanently failing delivery still runs at most
four attempts. -/
theorem C8_notification_retry_witness :
    (send_booking_confirmation_email_run (fun _ => true)).attempts ≤ 4 :=
  (C8_notification_retry (fun _ => true) dbX).1

/-- Claim C9 (amended): total_price always equals the property's
nightly rate times the whole-night count of the submitted dates — after
creation and equally after every successful update, which recomputes
the stored value through the same serializer validation. -/
theorem C9_total_price_formula :
    (∀ (props : List Property) (bookings : List Booking) (req : BookingRequest)
      (uid nid : Nat) (bks : List Booking) (b : Booking),
      createBooking props bookings req uid nid = Except.ok (bks, b) →
      ∃ p, findProperty props req.property_id = some p ∧
        b.total_price = p.price_per_night *
          ((req.end_date - req.start_date : Int) : ℚ)) ∧
    (∀ (props : List Property) (bookings : List Booking) (inst : Booking)
      (req : BookingRequest) (b2 : Booking),
      updateBooking props bookings inst req = Except.ok b2 →
      ∃ p, findProperty props req.property_id = some p ∧
        b2.total_price = p.price_per_night *
          ((req.end_date - req.start_date : Int) : ℚ)) := by
  constructor
  · intro props bookings req uid nid bks b h
    unfold createBooking at h
    cases hv : bookingSerializerValidate props bookings req none <;> rw [hv] at h
    · exact Except.noConfusion h
    · rename_i v
      injection h with h2
      injection h2 with h3 h4
      obtain ⟨hfp, _, _, _, _, _, _, _, htp⟩ := validate_ok_inv hv
      refine ⟨v.property, hfp, ?_⟩
      rw [← h4]
      exact htp
  · intro props bookings inst req b2 h
    unfold updateBooking at h
    cases hv : bookingSerializerValidate props bookings req (some inst) <;> rw [hv] at h
    · exact Except.noConfusion h
    · rename_i v
      injection h with h2
      obtain ⟨hfp, _, _, _, _, _, _, _, htp⟩ := validate_ok_inv hv
      refine ⟨v.property, hfp, ?_⟩
      rw [← h2]
      exact htp

/-- Witness for C9: the scenario booking's stored total (150) is
rate × nights for its request. -/
theorem C9_total_price_formula_witness :
    ∃ p, findProperty [propX] reqMar.property_id = some p ∧
      bookingA.total_price = p.price_per_night *
        ((reqMar.end_date - reqMar.start_date : Int) : ℚ) :=
  (C9_total_price_formula).1 [propX] [] reqMar 2 1 [bookingA] bookingA
    (by norm_num [createBooking, bookingSerializerValidate, findProperty,
      applyExclusion, overlappingBookings, propX, reqMar, bookingA, mkBooking,
      dayMar1, dayMar4])

/-- Counterexample to C9 as stated: updating a booking through the
serializer with its own unchanged dates succeeds and recomputes the
stored total_price (999 becomes 50 × 3 = 150), so an update does change
a booking's stored total_price. -/
theorem C9_update_recomputes_counterexample :
    updateBooking [propX] [staleBooking] staleBooking reqStale =
      Except.ok { staleBooking with total_price := 150 } ∧
    ({ staleBooking with total_price := 150 } : Booking).total_price ≠
      staleBooking.total_price := by
  constructor
  · norm_num [updateBooking, bookingSerializerValidate, findProperty,
      applyExclusion, overlappingBookings, propX, staleBooking, reqStale]
  · norm_num [staleBooking]

/-- Claim C10: a failure inside `create_notification` never fails a
confirm or cancel transition: the operation's success does not depend
on the notification environment, the booking's new status is persisted
even when no notification row could be created, and
`create_notification` returns `none` rather than raising. -/
theorem C10_notification_failure_isolated (env : NotifEnv) (db : DB)
    (bid actor : Nat) :
    ((∃ db2, confirmEndpoint env db bid actor = Except.ok db2) ↔
      (∃ db2, confirmEndpoint ⟨true⟩ db bid actor = Except.ok db2)) ∧
    (∀ db2, confirmEndpoint ⟨false⟩ db bid actor = Except.ok db2 →
      db2.notifications = db.notifications ∧
      ∃ b, findBooking db bid = some b ∧
        db2.bookings = saveBooking db.bookings
          { b with status := BookingStatus.confirmed }) ∧
    ((∃ db2, cancelEndpoint env db bid actor = Except.ok db2) ↔
      (∃ db2, cancelEndpoint ⟨true⟩ db bid actor = Except.ok db2)) ∧
    (∀ db2, cancelEndpoint ⟨false⟩ db bid actor = Except.ok db2 →
      db2.notifications = db.notifications ∧
      ∃ b, findBooking db bid = some b ∧
        db2.bookings = saveBooking db.bookings
          { b with status := BookingStatus.cancelled }) ∧
    (∀ (u : Nat) (nt t m : String) (bk pd : Option Nat),
      create_notification ⟨false⟩ u nt t m bk pd = none) := by
  refine ⟨?_, ?_, ?_, ?_, ?_⟩
  · unfold confirmEndpoint
    cases hfb : findBooking db bid with
    | none => simp
    | some booking =>
      cases hfp : findProperty db.properties booking.property_id with
      | none => simp [hfp]
      | some prop =>
        simp only [hfp]
        split_ifs <;> simp
  · unfold confirmEndpoint
    cases hfb : findBooking db bid with
    | none => intro db2 h; exact Except.noConfusion h
    | some booking =>
      cases hfp : findProperty db.properties booking.property_id with
      | none => intro db2 h; simp [hfp] at h
      | some prop =>
        intro db2 h
        simp only [hfp] at h
        split_ifs at h
        injection h with h2
        subst h2
        exact ⟨by simp [create_notification], booking, rfl, rfl⟩
  · unfold cancelEndpoint
    cases hfb : findBooking db bid with
    | none => simp
    | some booking =>
      cases hfp : findProperty db.properties booking.property_id with
      | none => simp [hfp]
      | some prop =>
        simp only [hfp]
        split_ifs <;> simp
  · unfold cancelEndpoint
    cases hfb : findBooking db bid with
    | none => intro db2 h; exact Except.noConfusion h
    | some booking =>
      cases hfp : findProperty db.properties booking.property_id with
      | none => intro db2 h; simp [hfp] at h
      | some prop =>
        intro db2 h
        simp only [hfp] at h
        split_ifs at h <;>
          (injection h with h2
           subst h2
           exact ⟨by simp [create_notification], booking, rfl, rfl⟩)
  · intro u nt t m bk pd
    rfl

/-- Witness for C10: with the failing notification environment,
`create_notification` returns `none` instead of raising. -/
theorem C10_notification_failure_isolated_witness :
    create_notification ⟨false⟩ 1 "booking_confirmed" "Booking Confirmed"
      "msg" none none = none :=
  (C10_notification_failure_isolated ⟨false⟩ dbX 1 1).2.2.2.2 1
    "booking_confirmed" "Booking Confirmed" "msg" none none
